import Mathlib

/-!
Verification of the Drive_easy dispatch frontend.

Shallow embedding of the React Native frontend sources:
- `frontend/app/driver/dashboard.tsx` (main driver dashboard)
- `frontend/app/driver/simple-dashboard.tsx` (simple driver dashboard)
- `src/unnamed/part_001` (compact driver dashboard)
- `frontend/app/track/[token].tsx` (customer tracking screen)
- `frontend/app/admin/dashboard.tsx` (admin dashboard)

Delivery statuses are kept as the raw strings used by the TypeScript code.
Numeric coordinate values are modeled as integers; the code under scrutiny
only copies them between records and never computes with them, so the
choice of numeric carrier is irrelevant to every stated property.
-/

namespace DriveEasy

/-! ## Driver dashboards: status-change actions offered per delivery status -/

/-- From `renderDeliveryCard` in `frontend/app/driver/dashboard.tsx`
(lines 506-561).  For each rendered delivery status, the list of delivery
statuses targeted by the status-change buttons the card offers, in render
order.  The three JSX guards are independent conditionals: status
`assigned` offers "Mark Picked Up" (`updateDeliveryStatus(id, picked_up)`),
status `picked_up` offers "In Transit" (`updateDeliveryStatus(id, in_transit)`),
status `in_transit` offers "Complete" (`completeDelivery`, which posts to the
complete endpoint and thus targets `delivered`).  "Start Navigation",
"Navigate" and "View Map" send no status change and contribute nothing. -/
def renderDeliveryCardStatusTargets (status : String) : List String :=
  (if status = "assigned" then ["picked_up"] else []) ++
  (if status = "picked_up" then ["in_transit"] else []) ++
  (if status = "in_transit" then ["delivered"] else [])

/-- From the delivery card JSX in
`frontend/app/driver/simple-dashboard.tsx` (lines 192-219): status
`assigned` offers "Mark Picked Up", status `picked_up` offers
"Start Transit" (`in_transit`), status `in_transit` offers
"Mark Delivered" (`delivered`); all via `updateDeliveryStatus`. -/
def simpleDashboardStatusTargets (status : String) : List String :=
  (if status = "assigned" then ["picked_up"] else []) ++
  (if status = "picked_up" then ["in_transit"] else []) ++
  (if status = "in_transit" then ["delivered"] else [])

/-- From `renderDeliveryActions` in `src/unnamed/part_001` (lines 153-196),
a compact driver dashboard whose status enum is
`created | assigned | in_progress | delivered | cancelled`.  The switch
offers: for `assigned` the "Start Delivery" button
(`updateDeliveryStatus(item.id, in_progress)`); for `in_progress` the
"Navigate" button (no status change) and the "Complete" button
(`updateDeliveryStatus(item.id, delivered)`); for `delivered` only a badge;
default: nothing. -/
def renderDeliveryActionsStatusTargets (status : String) : List String :=
  if status = "assigned" then ["in_progress"]
  else if status = "in_progress" then ["delivered"]
  else []

/-- The lifecycle asserted by the claim: each status of
`created → assigned → picked_up → in_transit → delivered` may only be
advanced to its immediate successor by a driver action. -/
def claimedNextStatusTargets (status : String) : List String :=
  if status = "assigned" then ["picked_up"]
  else if status = "picked_up" then ["in_transit"]
  else if status = "in_transit" then ["delivered"]
  else []

/-- The shorter lifecycle the compact dashboard of `src/unnamed/part_001`
actually follows: `created → assigned → in_progress → delivered`. -/
def compactNextStatusTargets (status : String) : List String :=
  if status = "assigned" then ["in_progress"]
  else if status = "in_progress" then ["delivered"]
  else []

/-! ## Customer tracking screen (`frontend/app/track/[token].tsx`) -/

/-- The `Location` interface of the tracking screen: latitude, longitude,
optional heading and speed, and a timestamp string. -/
structure TrackLocation where
  lat : Int
  lng : Int
  heading : Option Int
  speed : Option Int
  timestamp : String
deriving DecidableEq, Repr

/-- The `Delivery` interface of the tracking screen. -/
structure TrackDelivery where
  id : String
  customer_name : String
  pickup_address : String
  delivery_address : String
  status : String
  created_at : String
  started_at : Option String
  completed_at : Option String
deriving DecidableEq, Repr

/-- The `TrackingInfo` interface: the delivery plus an optional latest
driver location. -/
structure TrackingInfo where
  delivery : TrackDelivery
  location : Option TrackLocation
deriving DecidableEq, Repr

/-- A message arriving on the tracking WebSocket, after `JSON.parse`:
either a `location_update` carrying coordinates, a `delivery_updated`
notice, or anything else (ignored). -/
inductive TrackWsMessage where
  | locationUpdate (lat lng : Int) (heading speed : Option Int) (timestamp : String)
  | deliveryUpdated
  | other
deriving DecidableEq, Repr

/-- The `ws.onmessage` handler installed by `setupWebSocket` in
`frontend/app/track/[token].tsx` (lines 89-110), as a state transformer.
`capturedTrackingInfo` is the value of the `trackingInfo` variable that the
handler closure captured when `setupWebSocket` created it; `current` is the
React state at the time the message arrives.  A `location_update` is
processed only when the captured `trackingInfo` is truthy; the functional
`setTrackingInfo(prev => ...)` then returns `prev` unchanged when `prev` is
null and otherwise replaces only the `location` field with the fields of
the message.  A `delivery_updated` message triggers an HTTP refresh
(`loadTrackingInfo`) and writes no state directly; any other message is
ignored. -/
def handleTrackMessage (capturedTrackingInfo : Option TrackingInfo)
    (current : Option TrackingInfo) (msg : TrackWsMessage) : Option TrackingInfo :=
  match msg with
  | .locationUpdate lat lng heading speed timestamp =>
      if capturedTrackingInfo.isSome then
        match current with
        | none => none
        | some prev =>
            some { prev with
                   location := some { lat := lat, lng := lng, heading := heading,
                                      speed := speed, timestamp := timestamp } }
      else current
  | .deliveryUpdated => current
  | .other => current

/-- The `trackingInfo` value captured by the WebSocket handlers installed at
mount.  The `useEffect` with dependency `[token]` runs `loadTrackingInfo()`
and `setupWebSocket()` right after the first render, where the
`useState<TrackingInfo | null>(null)` state is still null; the reconnect in
`ws.onclose` re-invokes the same renders `setupWebSocket`, so every handler
created for a fixed token closes over this null value. -/
def mountCapturedTrackingInfo : Option TrackingInfo := none

/-- The render guard of the "Live Location" block in the tracking screen
(line 259): `delivery.status === in_progress && location`. -/
def showLocationBlock (status : String) (location : Option TrackLocation) : Bool :=
  status == "in_progress" && location.isSome

/-- Outcome of the `fetch` performed by `loadTrackingInfo`:
an OK response with a parsed body, a 404, any other non-OK status, or a
thrown network error. -/
inductive TrackFetchResult where
  | ok (info : TrackingInfo)
  | notFound404
  | otherErrorStatus
  | networkFailure
deriving DecidableEq, Repr

/-- Result of one run of `loadTrackingInfo` in
`frontend/app/track/[token].tsx` (lines 60-78): the request URL built from
the token, the `trackingInfo` state written on success, and the `error`
state written by each branch. -/
structure LoadTrackingOutcome where
  requestUrl : String
  newInfo : Option TrackingInfo
  newError : Option String
deriving DecidableEq, Repr

/-- `loadTrackingInfo` as a function of the token and the fetch outcome.
On OK it stores the body and clears the error; on 404 it sets the fixed
not-found message; on any other status it sets the fixed failure message;
on a thrown error it sets the fixed network message.  The only place the
token enters is the request URL. -/
def loadTrackingInfo (token : String) (response : TrackFetchResult) : LoadTrackingOutcome :=
  { requestUrl := "/api/track/" ++ token
  , newInfo :=
      match response with
      | .ok info => some info
      | _ => none
  , newError :=
      match response with
      | .ok _ => none
      | .notFound404 => some "Tracking information not found. Please check your tracking link."
      | .otherErrorStatus => some "Failed to load tracking information."
      | .networkFailure => some "Network error. Please check your internet connection." }

/-! ## Admin dashboard delivery creation (`frontend/app/admin/dashboard.tsx`) -/

/-- The `formData` state of the admin dashboard (lines 62-69): six string
fields, all initially empty. -/
structure DeliveryFormData where
  customer_name : String
  customer_phone : String
  customer_email : String
  pickup_address : String
  delivery_address : String
  notes : String
deriving DecidableEq, Repr

/-- What `createDelivery` does before any network activity: either it shows
the validation alert and returns, or it posts the form data to the create
endpoint. -/
inductive CreateDeliveryAction where
  | validationAlert (message : String)
  | postRequest (payload : DeliveryFormData)
deriving DecidableEq, Repr

/-- The guard and submission of `createDelivery` in
`frontend/app/admin/dashboard.tsx` (lines 144-180).  The JS truthiness test
`!formData.customer_name || !formData.customer_email ||
!formData.pickup_address || !formData.delivery_address` rejects exactly the
forms in which one of those four strings is empty; `customer_phone` and
`notes` are never consulted. -/
def createDelivery (formData : DeliveryFormData) : CreateDeliveryAction :=
  if formData.customer_name == "" || formData.customer_email == "" ||
     formData.pickup_address == "" || formData.delivery_address == "" then
    .validationAlert "Please fill in all required fields"
  else
    .postRequest formData

/-! ## WebSocket reconnection delays -/

/-- WebSocket readyState constants of the web platform. -/
def WebSocket.CONNECTING : Nat := 0

/-- The OPEN readyState. -/
def WebSocket.OPEN : Nat := 1

/-- The CLOSING readyState. -/
def WebSocket.CLOSING : Nat := 2

/-- The CLOSED readyState. -/
def WebSocket.CLOSED : Nat := 3

/-- Delay in milliseconds before the reconnection attempt scheduled by
`ws.onclose` in `connectWebSocket` of `frontend/app/driver/dashboard.tsx`
(lines 277-287): a literal `setTimeout(..., 10000)`, the same on every
close, regardless of how many attempts came before. -/
def driverReconnectDelayMs (_attempt : Nat) : Nat := 10000

/-- Delay in milliseconds before the reconnection attempt scheduled by
`ws.onclose` in `setupWebSocket` of `frontend/app/track/[token].tsx`
(lines 112-120): a literal `setTimeout(..., 3000)`, the same on every
close. -/
def trackingReconnectDelayMs (_attempt : Nat) : Nat := 3000

/-- The stored user record, as parsed from AsyncStorage `userData`. -/
structure StoredUser where
  id : String
  role : String
  name : String
deriving DecidableEq, Repr

/-- What the driver dashboard `ws.onclose` handler schedules after clearing
the socket state: after 10000 ms, if a user is loaded, re-invoke
`connectWebSocket(user.id)` (which opens a fresh socket and re-registers);
with no user, nothing. -/
def driverOnCloseReconnect (user : Option StoredUser) : Option (Nat × String) :=
  match user with
  | some u => some (driverReconnectDelayMs 0, u.id)
  | none => none

/-- What the tracking screen `ws.onclose` handler schedules: after 3000 ms,
if the referenced socket readyState is CLOSED, re-invoke `setupWebSocket()`
(a fresh connection and subscription for the token); otherwise nothing. -/
def trackingOnCloseReconnect (refReadyState : Nat) : Option Nat :=
  if refReadyState == WebSocket.CLOSED then some (trackingReconnectDelayMs 0) else none

/-! ## Driver location sampling and transmission
(`frontend/app/driver/dashboard.tsx`) -/

/-- The coordinates delivered by `expo-location` to the watch-position
callback; heading, speed and accuracy may be absent. -/
structure WatchCoords where
  latitude : Int
  longitude : Int
  heading : Option Int
  speed : Option Int
  accuracy : Option Int
deriving DecidableEq, Repr

/-- The `UserLocation` interface of the driver dashboard. -/
structure UserLocation where
  latitude : Int
  longitude : Int
  heading : Int
  speed : Int
  accuracy : Int
deriving DecidableEq, Repr

/-- The `newLocation` object built by the watch-position callback
(lines 198-204): missing heading, speed or accuracy default to 0 via
`|| 0`. -/
def buildNewLocation (coords : WatchCoords) : UserLocation :=
  { latitude := coords.latitude
  , longitude := coords.longitude
  , heading := coords.heading.getD 0
  , speed := coords.speed.getD 0
  , accuracy := coords.accuracy.getD 0 }

/-- A JSON value as far as the transmitted payloads need: a number or a
string. -/
inductive JsonVal where
  | num (n : Int)
  | str (s : String)
deriving DecidableEq, Repr

/-- The JSON object produced by
`JSON.stringify({ ...newLocation, timestamp: new Date().toISOString() })`
(lines 211-214), as an ordered list of key-value pairs: the five
`newLocation` fields in declaration order, then the timestamp. -/
def locationPayload (loc : UserLocation) (nowIso : String) : List (String × JsonVal) :=
  [ ("latitude", .num loc.latitude)
  , ("longitude", .num loc.longitude)
  , ("heading", .num loc.heading)
  , ("speed", .num loc.speed)
  , ("accuracy", .num loc.accuracy)
  , ("timestamp", .str nowIso) ]

/-- The timestamp string carried by a location payload (the value sent
under the `timestamp` key). -/
def payloadTimestamp (loc : UserLocation) (nowIso : String) : String :=
  match (locationPayload loc nowIso).lookup "timestamp" with
  | some (.str s) => s
  | _ => ""

/-- The WebSocket URL the driver dashboard connects to (line 243): the
driver id travels in the URL path, not in the location messages. -/
def driverWsUrl (wsBase : String) (driverId : String) : String :=
  wsBase ++ "/ws/driver/" ++ driverId

/-- The mutable socket as the watch-position callback sees it: either no
socket yet (`websocket` state is null) or a socket with a readyState. -/
structure WsRef where
  readyState : Nat
deriving DecidableEq, Repr

/-- The send decision of the watch-position callback (lines 208-218): the
payload is sent if and only if a socket exists and its readyState equals
`WebSocket.OPEN`; otherwise the sample is skipped without error. -/
def onPositionUpdateSend (websocket : Option WsRef) (coords : WatchCoords)
    (nowIso : String) : Option (List (String × JsonVal)) :=
  match websocket with
  | some ws =>
      if ws.readyState == WebSocket.OPEN then
        some (locationPayload (buildNewLocation coords) nowIso)
      else none
  | none => none

/-! ## Dashboard entry gating
(`checkAuthAndLoad` in both dashboards) -/

/-- What the admin dashboard `checkAuthAndLoad` (lines 89-112) does:
either redirect to the login screen (no data loading at all), or accept the
user and start `loadDeliveries` and `loadDrivers`. -/
inductive AdminInit where
  | redirectToLogin
  | loadDashboard (user : StoredUser)
deriving DecidableEq, Repr

/-- `checkAuthAndLoad` of `frontend/app/admin/dashboard.tsx`: with no
stored token or no stored user data it redirects; with a parsed user whose
role is not `admin` it alerts and redirects; only otherwise does it set the
user and kick off the delivery and driver loads.  (The catch branch for a
failed JSON parse also redirects; parsing is abstracted by taking the user
as an already-parsed optional record.) -/
def adminCheckAuthAndLoad (authToken : Option String) (userData : Option StoredUser) :
    AdminInit :=
  match authToken, userData with
  | some _, some u => if u.role == "admin" then .loadDashboard u else .redirectToLogin
  | _, _ => .redirectToLogin

/-- What the driver dashboard `checkAuthAndLoad` (lines 95-131) does:
either redirect, or accept the user and start the progressive loading chain
(`loadDeliveries`, `requestLocationPermissions`,
`connectWebSocket(user.id)`). -/
inductive DriverInit where
  | redirectToLogin
  | loadDashboard (user : StoredUser)
deriving DecidableEq, Repr

/-- `checkAuthAndLoad` of `frontend/app/driver/dashboard.tsx`: same shape
as the admin one, gated on role `driver`. -/
def driverCheckAuthAndLoad (authToken : Option String) (userData : Option StoredUser) :
    DriverInit :=
  match authToken, userData with
  | some _, some u => if u.role == "driver" then .loadDashboard u else .redirectToLogin
  | _, _ => .redirectToLogin

/-! ## Concrete sample values used by witnesses and counterexamples -/

/-- A concrete driver location sample. -/
def sampleTrackLocation : TrackLocation :=
  { lat := 37, lng := -122, heading := none, speed := some 3
  , timestamp := "2025-01-01T00:00:00.000Z" }

/-- A concrete admin form holding a customer name, a phone number, an empty
email, and both addresses. -/
def phoneOnlyFormData : DeliveryFormData :=
  { customer_name := "A. Lee", customer_phone := "555-0100", customer_email := ""
  , pickup_address := "100 Main St", delivery_address := "200 Oak Ave", notes := "" }

/-- A concrete `UserLocation`. -/
def sampleUserLocation : UserLocation :=
  { latitude := 37, longitude := -122, heading := 0, speed := 0, accuracy := 5 }

/-- Concrete watch-position coordinates. -/
def sampleWatchCoords : WatchCoords :=
  { latitude := 37, longitude := -122, heading := none, speed := some 3, accuracy := some 5 }

/-! ## Claim C1 -/

/-- C1 counterexample: on the compact driver dashboard of
`src/unnamed/part_001`, a delivery rendered with status `assigned` offers
exactly one status-change action, and it targets `in_progress`, a status
that is not the next step `picked_up` of the claimed lifecycle (indeed not
a status of that lifecycle at all). -/
theorem claimC1_counterexample :
    renderDeliveryActionsStatusTargets "assigned" = ["in_progress"] ∧
    "in_progress" ∈ renderDeliveryActionsStatusTargets "assigned" ∧
    "in_progress" ≠ "picked_up" ∧ "in_progress" ≠ "in_transit" ∧
    "in_progress" ≠ "delivered" := by
  decide

/-- C1 (amended): the main driver dashboard and the simple driver dashboard
offer, for every rendered status, exactly the status-change action for the
next legal transition of `created → assigned → picked_up → in_transit →
delivered`; the compact dashboard of `src/unnamed/part_001` instead follows
the shorter lifecycle `created → assigned → in_progress → delivered`,
offering exactly `in_progress` from `assigned` and `delivered` from
`in_progress`, and no driver action on any dashboard targets any other
status. -/
theorem claimC1_statusActions (status : String) :
    renderDeliveryCardStatusTargets status = claimedNextStatusTargets status ∧
    simpleDashboardStatusTargets status = claimedNextStatusTargets status ∧
    renderDeliveryActionsStatusTargets status = compactNextStatusTargets status := by
  refine ⟨?_, ?_, rfl⟩ <;>
  · simp only [renderDeliveryCardStatusTargets, simpleDashboardStatusTargets,
      claimedNextStatusTargets]
    by_cases h1 : status = "assigned" <;> by_cases h2 : status = "picked_up" <;>
      by_cases h3 : status = "in_transit" <;> simp_all

/-! ## Claim C2 -/

/-- C2: the live-location block of the customer tracking screen is rendered
only when the tracked delivery has the active status `in_progress` and a
location is known; in particular it is never rendered while the status is
`created`, `delivered` or `cancelled`. -/
theorem claimC2_locationBlockOnlyActive (status : String) (location : Option TrackLocation)
    (h : showLocationBlock status location = true) :
    status ≠ "created" ∧ status ≠ "delivered" ∧ status ≠ "cancelled" ∧
    status = "in_progress" ∧ location.isSome = true := by
  unfold showLocationBlock at h
  simp only [Bool.and_eq_true, beq_iff_eq] at h
  obtain ⟨hs, hl⟩ := h
  subst hs
  exact ⟨by decide, by decide, by decide, rfl, hl⟩

/-- C2 witness: the theorem applied to a delivery in `in_progress` with a
known location, where the block is in fact rendered. -/
theorem claimC2_locationBlockOnlyActive_witness :
    ("in_progress" : String) ≠ "created" ∧ ("in_progress" : String) ≠ "delivered" ∧
    ("in_progress" : String) ≠ "cancelled" ∧ ("in_progress" : String) = "in_progress" ∧
    (some sampleTrackLocation).isSome = true :=
  claimC2_locationBlockOnlyActive "in_progress" (some sampleTrackLocation) rfl

/-! ## Claim C3 -/

/-- C3 (code bug): every `location_update` message is dropped by the
tracking screen.  The `onmessage` guard tests the `trackingInfo` value the
handler closure captured when `setupWebSocket` installed it, which at mount
(and at every reconnection, since reconnects re-run the same closure) is
the initial null; so the handler leaves the state, and in particular the
displayed location, unchanged, while the claim (and the specification
scenario) require the displayed location to become exactly the coordinates
carried by the event. -/
theorem claimC3_locationUpdateDropped (current : Option TrackingInfo)
    (lat lng : Int) (heading speed : Option Int) (timestamp : String) :
    handleTrackMessage mountCapturedTrackingInfo current
      (.locationUpdate lat lng heading speed timestamp) = current := by
  cases current <;> rfl

/-! ## Claim C4 -/

/-- C4 counterexample: a form carrying a customer name, a phone number (a
contact method), and both addresses, but no email, is rejected with the
validation alert and no create request is sent, although the claim requires
submission whenever name, a contact method and both addresses are
present. -/
theorem claimC4_counterexample :
    phoneOnlyFormData.customer_name ≠ "" ∧
    phoneOnlyFormData.customer_phone ≠ "" ∧
    phoneOnlyFormData.pickup_address ≠ "" ∧
    phoneOnlyFormData.delivery_address ≠ "" ∧
    createDelivery phoneOnlyFormData =
      CreateDeliveryAction.validationAlert "Please fill in all required fields" := by
  exact ⟨by decide, by decide, by decide, by decide, rfl⟩

/-- C4 (amended): the admin delivery-creation form submits a create request
exactly when customer name, customer email, pickup address and delivery
address are all non-empty; a phone number does not count as the required
contact method, and whenever any of those four fields is missing the form
shows the validation alert and sends no request. -/
theorem claimC4_createValidation (f : DeliveryFormData) :
    (createDelivery f = CreateDeliveryAction.postRequest f ↔
      (f.customer_name ≠ "" ∧ f.customer_email ≠ "" ∧
       f.pickup_address ≠ "" ∧ f.delivery_address ≠ "")) ∧
    (createDelivery f = CreateDeliveryAction.postRequest f ∨
     createDelivery f =
       CreateDeliveryAction.validationAlert "Please fill in all required fields") := by
  unfold createDelivery
  by_cases h : (f.customer_name == "" || f.customer_email == "" ||
      f.pickup_address == "" || f.delivery_address == "") = true
  · rw [if_pos h]
    simp only [Bool.or_eq_true, beq_iff_eq] at h
    refine ⟨⟨fun hc => absurd hc (by simp), fun ⟨h1, h2, h3, h4⟩ => ?_⟩, Or.inr rfl⟩
    rcases h with ((h | h) | h) | h
    · exact absurd h h1
    · exact absurd h h2
    · exact absurd h h3
    · exact absurd h h4
  · rw [if_neg h]
    simp only [Bool.or_eq_true, beq_iff_eq, not_or] at h
    obtain ⟨⟨⟨h1, h2⟩, h3⟩, h4⟩ := h
    exact ⟨⟨fun _ => ⟨h1, h2, h3, h4⟩, fun _ => rfl⟩, Or.inl rfl⟩

/-! ## Claim C5 -/

/-- C5: when the tracking fetch returns 404, the screen shows one fixed
not-found message; the message does not depend on the token, so malformed
and unknown tokens are indistinguishable to the viewer. -/
theorem claimC5_uniformNotFound (token1 token2 : String) :
    (loadTrackingInfo token1 .notFound404).newError =
      (loadTrackingInfo token2 .notFound404).newError ∧
    (loadTrackingInfo token1 .notFound404).newError =
      some "Tracking information not found. Please check your tracking link." :=
  ⟨rfl, rfl⟩

/-! ## Claim C6 -/

/-- C6 counterexample: the reconnection delay scheduled after a second
close equals the delay after the first close on both clients (10000 ms on
the driver dashboard, 3000 ms on the tracking screen), so the retry delay
never grows between attempts, contradicting exponential backoff. -/
theorem claimC6_counterexample :
    driverReconnectDelayMs 1 = driverReconnectDelayMs 0 ∧
    trackingReconnectDelayMs 1 = trackingReconnectDelayMs 0 ∧
    driverReconnectDelayMs 0 = 10000 ∧ trackingReconnectDelayMs 0 = 3000 := by
  decide

/-- C6 (amended): on every unexpected close each client schedules a single
reconnection attempt after a fixed delay that happens to lie in the 3-10
second range (10 s on the driver dashboard, 3 s on the tracking screen),
with no exponential growth and no jitter; the reconnect re-subscribes from
scratch by opening a fresh connection (the driver dashboard re-invokes
`connectWebSocket` with the stored user id when a user is loaded, the
tracking screen re-invokes `setupWebSocket` when the socket is still
CLOSED). -/
theorem claimC6_fixedDelayReconnect (n : Nat) (u : StoredUser) :
    driverReconnectDelayMs n = 10000 ∧ trackingReconnectDelayMs n = 3000 ∧
    3000 ≤ driverReconnectDelayMs n ∧ driverReconnectDelayMs n ≤ 10000 ∧
    3000 ≤ trackingReconnectDelayMs n ∧ trackingReconnectDelayMs n ≤ 10000 ∧
    driverOnCloseReconnect (some u) = some (10000, u.id) ∧
    driverOnCloseReconnect none = none ∧
    trackingOnCloseReconnect WebSocket.CLOSED = some 3000 ∧
    trackingOnCloseReconnect WebSocket.OPEN = none := by
  refine ⟨rfl, rfl, ?_, ?_, ?_, ?_, rfl, rfl, rfl, rfl⟩ <;>
    norm_num [driverReconnectDelayMs, trackingReconnectDelayMs]

/-! ## Claim C7 -/

/-- C7 counterexample: the JSON object transmitted for a concrete location
sample carries exactly the keys latitude, longitude, heading, speed,
accuracy and timestamp; no driver-identifying key is among them, so the
sample does not carry the driver id (the id travels only in the socket
URL). -/
theorem claimC7_counterexample :
    (locationPayload sampleUserLocation "2025-01-01T00:00:00.000Z").map Prod.fst =
      ["latitude", "longitude", "heading", "speed", "accuracy", "timestamp"] ∧
    "driver_id" ∉
      (locationPayload sampleUserLocation "2025-01-01T00:00:00.000Z").map Prod.fst ∧
    "driverId" ∉
      (locationPayload sampleUserLocation "2025-01-01T00:00:00.000Z").map Prod.fst ∧
    "id" ∉ (locationPayload sampleUserLocation "2025-01-01T00:00:00.000Z").map Prod.fst := by
  decide

/-- C7 (amended): every transmitted location sample carries exactly
latitude, longitude, heading, speed, accuracy and a timestamp (the driver
id is conveyed by the connection URL, not by the sample), the timestamp
field equals the clock reading taken at send time, and therefore the
timestamps of successive sends are non-decreasing whenever the client clock
readings are. -/
theorem claimC7_payloadShape (loc1 loc2 : UserLocation) (iso1 iso2 : String)
    (h : iso1 ≤ iso2) :
    (locationPayload loc1 iso1).map Prod.fst =
      ["latitude", "longitude", "heading", "speed", "accuracy", "timestamp"] ∧
    payloadTimestamp loc1 iso1 = iso1 ∧
    payloadTimestamp loc1 iso1 ≤ payloadTimestamp loc2 iso2 := by
  refine ⟨rfl, rfl, ?_⟩
  show iso1 ≤ iso2
  exact h

/-- C7 witness: the amended theorem applied to two concrete sends whose
clock readings coincide. -/
theorem claimC7_payloadShape_witness :
    (locationPayload sampleUserLocation "2025-01-01T00:00:00.000Z").map Prod.fst =
      ["latitude", "longitude", "heading", "speed", "accuracy", "timestamp"] ∧
    payloadTimestamp sampleUserLocation "2025-01-01T00:00:00.000Z" =
      "2025-01-01T00:00:00.000Z" ∧
    payloadTimestamp sampleUserLocation "2025-01-01T00:00:00.000Z" ≤
      payloadTimestamp sampleUserLocation "2025-01-01T00:00:00.000Z" :=
  claimC7_payloadShape sampleUserLocation sampleUserLocation
    "2025-01-01T00:00:00.000Z" "2025-01-01T00:00:00.000Z" (le_refl _)

/-! ## Claim C8 -/

/-- C8: the watch-position callback transmits a sample only when a socket
exists and its readyState equals OPEN; in every other case the callback
produces no send (the sample is skipped without error). -/
theorem claimC8_sendOnlyWhenOpen (websocket : Option WsRef) (coords : WatchCoords)
    (nowIso : String) (payload : List (String × JsonVal))
    (h : onPositionUpdateSend websocket coords nowIso = some payload) :
    ∃ ws, websocket = some ws ∧ ws.readyState = WebSocket.OPEN := by
  match websocket with
  | none => exact absurd h (by simp [onPositionUpdateSend])
  | some ws =>
    refine ⟨ws, rfl, ?_⟩
    by_cases hrs : (ws.readyState == WebSocket.OPEN) = true
    · exact beq_iff_eq.mp hrs
    · exact absurd h (by simp [onPositionUpdateSend, hrs])

/-- C8 witness: the theorem applied to an OPEN socket, where the send does
happen. -/
theorem claimC8_sendOnlyWhenOpen_witness :
    ∃ ws, (some { readyState := WebSocket.OPEN } : Option WsRef) = some ws ∧
      ws.readyState = WebSocket.OPEN :=
  claimC8_sendOnlyWhenOpen (some { readyState := WebSocket.OPEN }) sampleWatchCoords
    "2025-01-01T00:00:00.000Z"
    (locationPayload (buildNewLocation sampleWatchCoords) "2025-01-01T00:00:00.000Z") rfl

/-! ## Claim C9 -/

/-- C9: processing a `location_update` message on the tracking screen never
changes the `delivery` field of the tracking state: whatever value the
handler closure captured and whatever the current state, the delivery
(status, addresses, customer name, timestamps) after the event equals the
one before; only the `location` field can change. -/
theorem claimC9_locationUpdatePreservesDelivery (captured current : Option TrackingInfo)
    (lat lng : Int) (heading speed : Option Int) (timestamp : String) :
    (handleTrackMessage captured current
        (.locationUpdate lat lng heading speed timestamp)).map TrackingInfo.delivery =
      current.map TrackingInfo.delivery := by
  by_cases h : captured.isSome = true
  · simp only [handleTrackMessage, if_pos h]
    cases current <;> rfl
  · simp only [handleTrackMessage, if_neg h]

/-! ## Claim C10 -/

/-- C10: both dashboards gate entry on the stored credentials: the
initialization either redirects to the login screen with none of the data
loading started, or it accepts a stored user and starts loading, and the
latter happens only when an auth token is stored and the user role is
exactly `admin` (admin dashboard) respectively `driver` (driver
dashboard). -/
theorem claimC10_roleGating (authToken : Option String) (userData : Option StoredUser) :
    (adminCheckAuthAndLoad authToken userData = AdminInit.redirectToLogin ∨
      (∃ u, userData = some u ∧ u.role = "admin" ∧ authToken ≠ none ∧
        adminCheckAuthAndLoad authToken userData = AdminInit.loadDashboard u)) ∧
    (driverCheckAuthAndLoad authToken userData = DriverInit.redirectToLogin ∨
      (∃ u, userData = some u ∧ u.role = "driver" ∧ authToken ≠ none ∧
        driverCheckAuthAndLoad authToken userData = DriverInit.loadDashboard u)) := by
  constructor
  · match authToken, userData with
    | none, none => exact Or.inl rfl
    | none, some u => exact Or.inl rfl
    | some t, none => exact Or.inl rfl
    | some t, some u =>
      by_cases h : (u.role == "admin") = true
      · exact Or.inr ⟨u, rfl, by simpa [beq_iff_eq] using h,
          fun hc => Option.noConfusion hc, by simp [adminCheckAuthAndLoad, h]⟩
      · exact Or.inl (by simp [adminCheckAuthAndLoad, h])
  · match authToken, userData with
    | none, none => exact Or.inl rfl
    | none, some u => exact Or.inl rfl
    | some t, none => exact Or.inl rfl
    | some t, some u =>
      by_cases h : (u.role == "driver") = true
      · exact Or.inr ⟨u, rfl, by simpa [beq_iff_eq] using h,
          fun hc => Option.noConfusion hc, by simp [driverCheckAuthAndLoad, h]⟩
      · exact Or.inl (by simp [driverCheckAuthAndLoad, h])

end DriveEasy
